import Mathlib

/-!
Verification development for the stay-liquid tab bar overlay plugin.

The definitions below are shallow embeddings of the plugin's source:

* the decoded JavaScript payload and the native tab model
  (`JSItem`, `TabsBarItem`, ... from `TabsBarPlugin.swift` and the overlay
  source file);
* the `configure` validation and item construction (`TabsBarPlugin.configure`);
* the overlay's selection / gesture coordinator (`TabsBarOverlay`);
* the icon fallback logic (`TabsBarOverlay.loadImageForItem`);
* the web image cache (`ImageManager` in `web.ts`), including in-flight
  deduplication and the 24h TTL;
* the iOS image loader (`ImageUtils` nested in the overlay), which has a
  cache without timestamps and a boolean loading map;
* the pure transformer pipeline (`applyImageIconStyling`,
  `resizeImageAspect...`, `addEnhancedRingToImage`), with pixel geometry
  carried out over `ℚ` and bitmap contents kept abstract.

Swift's trapping operations (force unwrap, `Dictionary(uniqueKeysWithValues:)`)
are modelled by `Option`, with `none` standing for the trap.
-/

namespace StayLiquid

/-- ASCII lowercasing, modelling Swift's `lowercased()` and JavaScript's
`toLowerCase()` on the ASCII strings the plugin compares (MIME tokens,
shape and scale-mode names). -/
def lowerAscii (s : String) : String := ⟨s.data.map Char.toLower⟩

/-- Whether `p` occurs at the start of `s` (the anchored pattern matches
and Swift's `hasPrefix`). -/
def strStarts (p s : String) : Bool := List.isPrefixOf p.data s.data

/-- Ring configuration for image icons (`ImageIconRing` in the source);
`width` is optional with default 2.0 applied at use sites. -/
structure ImageIconRing where
  enabled : Bool
  width : Option ℚ
deriving DecidableEq, Repr

/-- Image icon configuration (`ImageIcon` in the source). -/
structure ImageIcon where
  shape : String
  size : String
  image : String
  ring : Option ImageIconRing
deriving DecidableEq, Repr

/-- Badge values displayed on a tab (`TabsBarBadge` in the source). -/
inductive TabsBarBadge
  | number (n : Int)
  | dot
deriving DecidableEq, Repr

/-- Badge wire values as decoded from JavaScript (`JSBadge` in the source). -/
inductive JSBadge
  | number (n : Int)
  | dot
  | null
deriving DecidableEq, Repr

/-- A decoded tab item as received from JavaScript (`JSItem` in
`TabsBarPlugin.swift`).  `systemIcon` is declared `String?` for the decoder,
so an item without the field decodes successfully to `none`. -/
structure JSItem where
  id : String
  title : Option String
  systemIcon : Option String
  image : Option String
  imageIcon : Option ImageIcon
  badge : Option JSBadge
deriving DecidableEq, Repr

/-- A native tab item (`TabsBarItem` in the source); `systemIcon` is a
mandatory `String`. -/
structure TabsBarItem where
  id : String
  title : Option String
  systemIcon : String
  image : Option String
  imageIcon : Option ImageIcon
  badge : Option TabsBarBadge
deriving DecidableEq, Repr

namespace TabsBarPlugin

/-- The item validation performed by `TabsBarPlugin.configure` (source lines
480-492): the decoded items list must be non-empty and every `id` must be
non-empty.  No uniqueness check on ids is performed there. -/
def validateItems (jsItems : List JSItem) : Bool :=
  !jsItems.isEmpty && jsItems.all (fun item => !item.id.isEmpty)

/-- Badge conversion inside `configure`: `.null` becomes no badge. -/
def convertBadge (b : Option JSBadge) : Option TabsBarBadge :=
  match b with
  | none => none
  | some (.number n) => some (.number n)
  | some .dot => some .dot
  | some .null => none

/-- Item construction inside `configure` (source lines 522-551): the
optional `systemIcon` is force-unwrapped (`js.systemIcon!`), so an item
whose `systemIcon` is absent traps; the trap is modelled as `none`. -/
def buildItems (jsItems : List JSItem) : Option (List TabsBarItem) :=
  jsItems.mapM (fun js =>
    js.systemIcon.map (fun icon =>
      { id := js.id, title := js.title, systemIcon := icon,
        image := js.image, imageIcon := js.imageIcon,
        badge := convertBadge js.badge }))

end TabsBarPlugin

namespace TabsBarOverlay

/-- The `idToIndex` map rebuilt by `TabsBarOverlay.update` (line 99 of the
overlay source) with `Dictionary(uniqueKeysWithValues:)`, which traps when
two items share an id; the trap is modelled as `none`. -/
def buildIdToIndex (items : List TabsBarItem) : Option (List (String × Nat)) :=
  if (items.map TabsBarItem.id).Nodup then
    some (items.enum.map (fun p => (p.2.id, p.1)))
  else none

/-- Interaction kinds reported to the listener (`TabsBarInteractionKind`). -/
inductive InteractionKind
  | tap
  | longPress
deriving DecidableEq, Repr

/-- The overlay state relevant to selection and gestures: the current item
list, the rebuilt id-to-index map, the toolkit widget's highlighted index
(`tabBar.selectedItem`), `lastSelectedIndex`, and the one-shot
`suppressNextSelectionEvent` flag. -/
structure OverlayState where
  items : List TabsBarItem
  idToIndexMap : List (String × Nat)
  widgetSelectedIndex : Option Nat
  lastSelectedIndex : Option Nat
  suppressNextSelectionEvent : Bool
deriving DecidableEq, Repr

/-- `restorePreviousSelection`: moves the widget highlight back to
`lastSelectedIndex` when that index is valid, else does nothing. -/
def restorePreviousSelection (s : OverlayState) : OverlayState :=
  match s.lastSelectedIndex with
  | some p => if p < s.items.length then { s with widgetSelectedIndex := some p } else s
  | none => s

/-- `TabsBarOverlay.select(id:)` (source lines 131-137): looks the id up in
`idToIndex`; on a miss the guard returns and nothing changes; on a hit the
widget highlight and `lastSelectedIndex` move to the found index.  No
interaction event is ever emitted here.  The second component collects the
events emitted by the call. -/
def select (s : OverlayState) (id : String) :
    OverlayState × List (String × InteractionKind) :=
  match s.idToIndexMap.lookup id with
  | none => (s, [])
  | some idx =>
    if idx < s.items.length then
      ({ s with widgetSelectedIndex := some idx, lastSelectedIndex := some idx }, [])
    else (s, [])

/-- The `.began` branch of `TabsBarOverlay.handleLongPress` (source lines
672-687), which runs once a press is held past the 450 ms threshold: with a
valid tab index it sets the one-shot suppression flag, restores the widget
highlight to the previously selected index, and emits a `longPress` event. -/
def handleLongPressBegan (s : OverlayState) (index : Nat) :
    OverlayState × List (String × InteractionKind) :=
  if h : index < s.items.length then
    (restorePreviousSelection { s with suppressNextSelectionEvent := true },
     [((s.items[index]).id, InteractionKind.longPress)])
  else (s, [])

/-- The `.ended`, `.cancelled` and `.failed` branches of `handleLongPress`:
the suppression flag is cleared and no event is emitted. -/
def handleLongPressEnded (s : OverlayState) : OverlayState :=
  { s with suppressNextSelectionEvent := false }

/-- `tabBar(_:didSelect:)` (source lines 657-669).  The toolkit has already
moved the widget highlight to the touched item when the delegate runs; the
delegate then either consumes the one-shot suppression flag (restoring the
previous selection, emitting nothing) or commits the new selection and emits
a `tap` event. -/
def tabBarDidSelect (s : OverlayState) (index : Nat) :
    OverlayState × List (String × InteractionKind) :=
  let s0 : OverlayState := { s with widgetSelectedIndex := some index }
  if h : index < s0.items.length then
    if s0.suppressNextSelectionEvent then
      (restorePreviousSelection { s0 with suppressNextSelectionEvent := false }, [])
    else
      ({ s0 with lastSelectedIndex := some index },
       [((s0.items[index]).id, InteractionKind.tap)])
  else (s0, [])

/-- The long-press recognizers are armed with `minimumPressDuration = 0.45`
seconds (overlay source line 743). -/
def minimumPressDuration : ℚ := 0.45

/-- Everything that happens when a press on the valid tab `index` is held
past the long-press threshold while `p` was the selected index: the one-shot
suppression flag is set, the widget highlight is restored to `p`, the item
list and id map are untouched, exactly one `longPress` event for the held
tab is emitted, `lastSelectedIndex` keeps its prior value, the toolkit's
following auto-selection callback consumes the flag without emitting or
changing the selection, and the threshold constant equals 450 ms. -/
def LongPressSpec (s : OverlayState) (index p : Nat)
    (hidx : index < s.items.length) : Prop :=
  (handleLongPressBegan s index).1.suppressNextSelectionEvent = true ∧
  (handleLongPressBegan s index).1.widgetSelectedIndex = some p ∧
  (handleLongPressBegan s index).1.lastSelectedIndex = s.lastSelectedIndex ∧
  (handleLongPressBegan s index).1.items = s.items ∧
  (handleLongPressBegan s index).1.idToIndexMap = s.idToIndexMap ∧
  (handleLongPressBegan s index).2 = [((s.items[index]).id, InteractionKind.longPress)] ∧
  (tabBarDidSelect (handleLongPressBegan s index).1 index).1.suppressNextSelectionEvent = false ∧
  (tabBarDidSelect (handleLongPressBegan s index).1 index).2 = [] ∧
  (tabBarDidSelect (handleLongPressBegan s index).1 index).1.lastSelectedIndex = s.lastSelectedIndex ∧
  (tabBarDidSelect (handleLongPressBegan s index).1 index).1.widgetSelectedIndex = some p ∧
  minimumPressDuration * 1000 = 450

/-- The icon finally installed on a tab: the processed `imageIcon` result, a
symbolic (SF-symbol) icon, a bundled asset, or the empty placeholder
`UIImage()`.  The code never produces `fromBundled`; it exists so that the
code's fallback chain can be compared with the chain worded in the spec. -/
inductive ResolvedIcon
  | fromIconSource (img : Nat)
  | fromSymbol (name : String)
  | fromBundled (ref : String)
  | placeholder
deriving DecidableEq, Repr

/-- `TabsBarOverlay.loadImageForItem` (source lines 169-195).  `loaded` is
the value handed to the completion of `processImageIcon`: `some img` on
success and `none` on any pipeline failure (invalid source, unsupported
MIME, oversized payload, network error, undecodable bytes).
`symbolAvailable name` models whether `UIImage(systemName: name)` is
non-nil.  With an `imageIcon` present, a failed load falls back to the
symbolic icon and then to the empty placeholder; the bundled asset name
(`model.image`) is never consulted. -/
def loadImageForItem (symbolAvailable : String → Bool) (model : TabsBarItem)
    (loaded : Option Nat) : ResolvedIcon :=
  match model.imageIcon with
  | some _ =>
    match loaded with
    | some img => .fromIconSource img
    | none =>
      if symbolAvailable model.systemIcon then .fromSymbol model.systemIcon
      else .placeholder
  | none =>
    if symbolAvailable model.systemIcon then .fromSymbol model.systemIcon
    else .placeholder

/-- Modelled from the spec's words, for comparison with `loadImageForItem`:
the fallback chain `iconSource → symbolicIcon → bundledImageRef → empty
placeholder` (spec section 4.4). -/
def specFallbackChain (symbolAvailable : String → Bool) (model : TabsBarItem)
    (loaded : Option Nat) : ResolvedIcon :=
  match model.imageIcon, loaded with
  | some _, some img => .fromIconSource img
  | _, _ =>
    if symbolAvailable model.systemIcon then .fromSymbol model.systemIcon
    else
      match model.image with
      | some ref => .fromBundled ref
      | none => .placeholder

/-- The per-item image loading performed by `TabsBarOverlay.update`: one
independent `loadImageForItem` call per item, the load outcome of position
`i` being `loads i`. -/
def resolveAllItems (symbolAvailable : String → Bool)
    (models : List TabsBarItem) (loads : Nat → Option Nat) : List ResolvedIcon :=
  models.enum.map (fun p => loadImageForItem symbolAvailable p.2 (loads p.1))

end TabsBarOverlay

namespace ImageUtils

/-- Maximum accepted payload size, 5 MiB (`maxFileSize` in the source). -/
def maxFileSize : Nat := 5 * 1024 * 1024

/-- The allowed MIME types checked against `httpResponse.mimeType`
(`validTypes` in `loadImageFromUrl`). -/
def validTypes : List String :=
  ["image/png", "image/jpeg", "image/jpg", "image/svg+xml", "image/webp"]

/-- `isValidBase64DataUri`: the case-insensitive pattern
`data:image/(png|jpeg|jpg|svg+xml|webp);base64,` anchored at the start. -/
def isValidBase64DataUri (dataUri : String) : Bool :=
  ["png", "jpeg", "jpg", "svg+xml", "webp"].any
    (fun m => strStarts ("data:image/" ++ m ++ ";base64,") (lowerAscii dataUri))

/-- `isValidHttpUrl`: the string must parse as a URL whose scheme is `http`
or `https`; URL parsing is abstracted to a scheme check. -/
def isValidHttpUrl (urlString : String) : Bool :=
  strStarts "http://" urlString || strStarts "https://" urlString

/-- The three classification branches of `processImageIcon`: base64 data
URI, remote http(s) URL, otherwise invalid (completion receives nil). -/
inductive SourcePath
  | base64Path
  | remotePath
  | invalid
deriving DecidableEq, Repr

/-- `processImageIcon` classification order: base64 first, then remote URL,
else the invalid-source branch. -/
def classifySource (src : String) : SourcePath :=
  if isValidBase64DataUri src then .base64Path
  else if isValidHttpUrl src then .remotePath
  else .invalid

/-- Everything the `URLSession` completion inspects about a response:
whether data arrived, the HTTP status, the transport error flag, the
declared MIME type (`httpResponse.mimeType`, absent when the response
declares none), the payload size, and whether `UIImage(data:)` decodes it
(with `imageId` naming the decoded image). -/
structure IosResponse where
  hasData : Bool
  statusCode : Int
  hasError : Bool
  mimeType : Option String
  dataSize : Nat
  decodes : Bool
  imageId : Nat
deriving DecidableEq, Repr

/-- The response handling in `loadImageFromUrl` (source lines 76-127): the
status/data/error guard, then the content-type check - run only when the
response declares a MIME type - then the size limit, then decoding.
Returns the image cached and delivered on success, `none` on any failure. -/
def handleResponse (resp : IosResponse) : Option Nat :=
  if !(resp.hasData && (resp.statusCode == 200) && !resp.hasError) then none
  else
    let mimeOk :=
      match resp.mimeType with
      | some contentType => validTypes.contains (lowerAscii contentType)
      | none => true
    if !mimeOk then none
    else if maxFileSize < resp.dataSize then none
    else if resp.decodes then some resp.imageId else none

/-- The iOS loader's global state: `imageCache` (URL-keyed, no timestamps),
`loadingStates`, and a log of the fetches started (most recent first). -/
structure IosState where
  imageCache : List (String × Nat)
  loadingStates : List (String × Bool)
  fetchLog : List String
deriving DecidableEq, Repr

/-- What a single entry into `loadImageFromUrl` does before any network
callback runs. -/
inductive IosLoadStep
  | cachedHit (img : Nat)
  | deferredRetry
  | invalidUrl
  | fetchStarted
deriving DecidableEq, Repr

/-- `ImageUtils.loadImageFromUrl` entry (source lines 303-324 of the overlay
file): a cache hit completes immediately with the stored image - there is no
timestamp or TTL check - an in-flight key defers and retries, an unparsable
URL completes with nil, otherwise a fetch is started and the key marked
loading. -/
def loadImageFromUrl (s : IosState) (url : String) (urlParses : Bool) :
    IosState × IosLoadStep :=
  match s.imageCache.lookup url with
  | some img => (s, .cachedHit img)
  | none =>
    if s.loadingStates.lookup url = some true then (s, .deferredRetry)
    else if !urlParses then (s, .invalidUrl)
    else ({ s with loadingStates := (url, true) :: s.loadingStates,
                   fetchLog := url :: s.fetchLog }, .fetchStarted)

/-- The tail of the `URLSession` completion: the deferred
`loadingStates[url] = false` write, and on success the cache insertion. -/
def finishLoad (s : IosState) (url : String) (resp : IosResponse) : IosState :=
  let s1 : IosState :=
    { s with loadingStates := (url, false) :: s.loadingStates.filter (fun p => p.1 != url) }
  match handleResponse resp with
  | some img => { s1 with imageCache := (url, img) :: s1.imageCache }
  | none => s1

end ImageUtils

namespace ImageManager

/-- `CACHE_DURATION`: 24 hours in milliseconds (`web.ts` line 53). -/
def CACHE_DURATION : Nat := 24 * 60 * 60 * 1000

/-- `MAX_FILE_SIZE`: 5 MiB (`web.ts` line 25). -/
def MAX_FILE_SIZE : Nat := 5 * 1024 * 1024

/-- `SUPPORTED_FORMATS` of `ImageValidator` (`web.ts` line 24). -/
def SUPPORTED_FORMATS : List String :=
  ["image/png", "image/jpeg", "image/jpg", "image/svg+xml", "image/webp"]

/-- `ImageValidator.isValidImageFormat`: exact membership of the lowercased
content type in the supported list. -/
def isValidImageFormat (contentType : String) : Bool :=
  SUPPORTED_FORMATS.contains (lowerAscii contentType)

/-- What `fetchAndCacheImage` inspects about a fetch response: `response.ok`,
the `content-type` header (absent modelled as `none`; the code substitutes
the empty string), the blob size, and an abstract blob identity. -/
structure WebResponse where
  ok : Bool
  contentType : Option String
  blobSize : Nat
  blobId : Nat
deriving DecidableEq, Repr

/-- The failure kinds thrown inside `fetchAndCacheImage`. -/
inductive FetchFailure
  | httpError
  | unsupportedFormat
  | oversizedAsset
deriving DecidableEq, Repr

/-- The validation sequence of `fetchAndCacheImage` (`web.ts` lines
109-121): HTTP status, declared content type (header absent becomes the
empty string, which is not a supported format), then the 5 MiB size limit. -/
def checkResponse (resp : WebResponse) : Except FetchFailure Nat :=
  if !resp.ok then .error .httpError
  else if !isValidImageFormat ((resp.contentType).getD "") then .error .unsupportedFormat
  else if MAX_FILE_SIZE < resp.blobSize then .error .oversizedAsset
  else .ok resp.blobId

/-- A cache entry (`CachedImage` in `web.ts`). -/
structure CachedImage where
  url : String
  blobId : Nat
  timestamp : Nat
  objectUrl : Nat
deriving DecidableEq, Repr

/-- The state of `ImageManager`: the URL-keyed cache, the in-flight promise
registry (`loadingPromises`, URL to promise id), a counter supplying fresh
promise ids, the log of network fetches issued (most recent first), the
requesters currently awaiting each promise, and the results already
delivered to requesters. -/
structure MgrState where
  cache : List (String × CachedImage)
  loadingPromises : List (String × Nat)
  nextPromiseId : Nat
  fetchLog : List String
  subscribers : List (Nat × Nat)
  delivered : List (Nat × Nat)
deriving DecidableEq, Repr

/-- The initial, empty manager state. -/
def initState : MgrState :=
  { cache := [], loadingPromises := [], nextPromiseId := 0,
    fetchLog := [], subscribers := [], delivered := [] }

/-- Starting a fetch inside `loadRemoteImage`: a fresh promise is registered
under the URL, the network fetch is issued, and the requester awaits the
promise. -/
def startFetch (s : MgrState) (r : Nat) (url : String) : MgrState :=
  { s with loadingPromises := (url, s.nextPromiseId) :: s.loadingPromises,
           nextPromiseId := s.nextPromiseId + 1,
           fetchLog := url :: s.fetchLog,
           subscribers := (r, s.nextPromiseId) :: s.subscribers }

/-- `ImageManager.loadRemoteImage` (`web.ts` lines 72-96), for requester `r`:
an existing in-flight promise is joined; otherwise a cache entry younger
than `CACHE_DURATION` is delivered immediately with no fetch; otherwise a
fetch is started. -/
def loadRemoteImage (s : MgrState) (r : Nat) (url : String) (now : Nat) : MgrState :=
  match s.loadingPromises.lookup url with
  | some pid => { s with subscribers := (r, pid) :: s.subscribers }
  | none =>
    match s.cache.lookup url with
    | some cached =>
      if now - cached.timestamp < CACHE_DURATION then
        { s with delivered := (r, cached.objectUrl) :: s.delivered }
      else startFetch s r url
    | none => startFetch s r url

/-- `cleanupCache` (`web.ts` lines 149-157): drop every entry strictly older
than `CACHE_DURATION`. -/
def cleanupCache (cache : List (String × CachedImage)) (now : Nat) :
    List (String × CachedImage) :=
  cache.filter (fun p => decide (now - p.2.timestamp ≤ CACHE_DURATION))

/-- Settling the promise registered for `url` once its fetch response is in:
on a validation failure the promise is rejected - the registry entry and its
awaiting requesters are dropped, the cache untouched; on success the entry
for `url` is replaced by a fresh one stamped `now`, the expired entries are
swept, and every awaiting requester receives the new object URL. -/
def settleFetch (s : MgrState) (url : String) (resp : WebResponse)
    (objectUrl now : Nat) : MgrState :=
  match s.loadingPromises.lookup url with
  | none => s
  | some pid =>
    match checkResponse resp with
    | .error _ =>
      { s with loadingPromises := s.loadingPromises.filter (fun p => p.1 != url),
               subscribers := s.subscribers.filter (fun q => q.2 != pid) }
    | .ok blobId =>
      { s with
        cache := cleanupCache
          ((url, { url := url, blobId := blobId, timestamp := now,
                   objectUrl := objectUrl }) ::
            s.cache.filter (fun p => p.1 != url)) now,
        loadingPromises := s.loadingPromises.filter (fun p => p.1 != url),
        subscribers := s.subscribers.filter (fun q => q.2 != pid),
        delivered := (s.subscribers.filterMap
          (fun q => if q.2 == pid then some (q.1, objectUrl) else none)) ++ s.delivered }

/-- `ImageManager.clearCache`: all cached entries are released and the
in-flight bookkeeping dropped; a later settlement of an already-running
fetch finds no registered promise and retains nothing. -/
def clearCache (s : MgrState) : MgrState :=
  { s with cache := [], loadingPromises := [] }

/-- A batch of resolution requests for the same URL arriving back to back on
the single-threaded execution context, one per requester in `rs`. -/
def processRequests (s : MgrState) (rs : List Nat) (url : String) (now : Nat) : MgrState :=
  rs.foldl (fun t r => loadRemoteImage t r url now) s

/-- The manager states reachable from the initial state through the
operations of `ImageManager`. -/
inductive Reachable : MgrState → Prop
  | init : Reachable initState
  | load {s} (r : Nat) (url : String) (now : Nat) :
      Reachable s → Reachable (loadRemoteImage s r url now)
  | settle {s} (url : String) (resp : WebResponse) (objectUrl now : Nat) :
      Reachable s → Reachable (settleFetch s url resp objectUrl now)
  | clear {s} : Reachable s → Reachable (clearCache s)

/-- The fan-out behaviour promised for a batch of concurrent requests
`r :: rs` for the same uncached `url`: exactly one new network fetch
appears in the log, the batch shares the single freshly registered promise,
and once that promise settles successfully every requester of the batch has
received the fetched object URL. -/
def FanOutSpec (s : MgrState) (r : Nat) (rs : List Nat) (url : String)
    (now now2 : Nat) (resp : WebResponse) (objectUrl : Nat) : Prop :=
  ((processRequests s (r :: rs) url now).fetchLog.count url =
    s.fetchLog.count url + 1) ∧
  ((processRequests s (r :: rs) url now).loadingPromises.lookup url =
    some s.nextPromiseId) ∧
  (∀ r' ∈ r :: rs,
    (r', s.nextPromiseId) ∈ (processRequests s (r :: rs) url now).subscribers) ∧
  (∀ r' ∈ r :: rs,
    (r', objectUrl) ∈
      (settleFetch (processRequests s (r :: rs) url now) url resp objectUrl
        now2).delivered)

end ImageManager

/-- A drawing rectangle (`CGRect`), with exact `ℚ` coordinates. -/
structure DrawRect where
  x : ℚ
  y : ℚ
  w : ℚ
  h : ℚ
deriving DecidableEq, Repr

/-- A rendered bitmap, described by the exact sequence of drawing
operations that produced it: an abstract source bitmap, a draw of a source
into a fresh canvas at a rectangle, an ellipse-clipped redraw, or the ring
compositing step with its full geometry.  Two values of this type are equal
precisely when every geometric parameter and the source content agree. -/
inductive Rendered
  | base (pix : Nat) (w h : ℚ)
  | drawn (src : Rendered) (canvasW canvasH : ℚ) (rect : DrawRect)
  | clipped (src : Rendered) (w h : ℚ)
  | ringed (src : Rendered) (canvasW canvasH : ℚ) (imageRect ringRect : DrawRect)
      (ringWidth : ℚ) (ringColor : Nat) (ellipse : Bool) (cornerRadius : ℚ)
deriving DecidableEq, Repr

/-- The pixel width of a rendered bitmap. -/
def Rendered.width : Rendered → ℚ
  | .base _ w _ => w
  | .drawn _ cw _ _ => cw
  | .clipped _ w _ => w
  | .ringed _ cw _ _ _ _ _ _ _ => cw

/-- The pixel height of a rendered bitmap. -/
def Rendered.height : Rendered → ℚ
  | .base _ _ h => h
  | .drawn _ _ ch _ => ch
  | .clipped _ _ h => h
  | .ringed _ _ ch _ _ _ _ _ _ => ch

namespace TabsBarOverlay.ImageUtils

/-- `resizeImageAspectFit` of the overlay's nested `ImageUtils` (overlay
source lines 477-498): a fixed padding of 4 is removed from each side of the
target, the scale is the minimum of the two available-over-source ratios,
and the scaled image is centered in the target canvas. -/
def resizeImageAspectFit (image : Rendered) (targetW targetH : ℚ) : Rendered :=
  let padding : ℚ := 4
  let availW := targetW - padding * 2
  let availH := targetH - padding * 2
  let wScale := availW / image.width
  let hScale := availH / image.height
  let scale := min wScale hScale
  let newW := image.width * scale
  let newH := image.height * scale
  .drawn image targetW targetH
    { x := (targetW - newW) / 2, y := (targetH - newH) / 2, w := newW, h := newH }

/-- `resizeImageAspectFill` (overlay source lines 446-464): the scale is the
maximum of the two target-over-source ratios and the scaled image is
centered, overflowing the canvas, which crops it to the target. -/
def resizeImageAspectFill (image : Rendered) (targetW targetH : ℚ) : Rendered :=
  let wScale := targetW / image.width
  let hScale := targetH / image.height
  let scale := max wScale hScale
  let newW := image.width * scale
  let newH := image.height * scale
  .drawn image targetW targetH
    { x := (targetW - newW) / 2, y := (targetH - newH) / 2, w := newW, h := newH }

/-- `resizeImageToFill` (stretch): the image is drawn over the whole target
canvas, ignoring its aspect ratio. -/
def resizeImageToFill (image : Rendered) (targetW targetH : ℚ) : Rendered :=
  .drawn image targetW targetH { x := 0, y := 0, w := targetW, h := targetH }

/-- `makeCircularImage`: redraw of the image clipped to the inscribed
ellipse of its own bounds. -/
def makeCircularImage (image : Rendered) : Rendered :=
  .clipped image image.width image.height

/-- `applyImageIconStyling` of the overlay's nested `ImageUtils` (source
lines 416-443): target size 20 by 20, scale mode dispatch on the lowercased
`size` string with `fit` as default, then the shape mask, `circle` clipping
and `square` (or anything else) leaving the image unmasked.  A nil input
image propagates nil. -/
def applyImageIconStyling (image : Option Rendered) (shape sizeMode : String) :
    Option Rendered :=
  match image with
  | none => none
  | some image =>
    let targetW : ℚ := 20
    let targetH : ℚ := 20
    let resized :=
      match lowerAscii sizeMode with
      | "cover" => resizeImageAspectFill image targetW targetH
      | "stretch" => resizeImageToFill image targetW targetH
      | "fit" => resizeImageAspectFit image targetW targetH
      | _ => resizeImageAspectFit image targetW targetH
    some
      (match lowerAscii shape with
       | "circle" => makeCircularImage resized
       | "square" => resized
       | _ => resized)

/-- `addEnhancedRingToImage` (overlay source lines 531-583): the canvas
grows by a spacer equal to the ring width plus the ring width on every side,
plus a fixed bottom padding of 2; the image is drawn centered; the ring is
stroked at the outer edge - an ellipse when the source is square, otherwise
a rounded rectangle whose corner radius is a tenth of the smaller source
dimension. -/
def addEnhancedRingToImage (image : Rendered) (ringWidth : ℚ) (ringColor : Nat) :
    Rendered :=
  let w := image.width
  let h := image.height
  let spacerWidth := ringWidth
  let bottomPadding : ℚ := 2
  let totalRingSpace := spacerWidth + ringWidth
  let newW := w + totalRingSpace * 2
  let newH := h + totalRingSpace * 2 + bottomPadding
  let imageRect : DrawRect := { x := totalRingSpace, y := totalRingSpace, w := w, h := h }
  let ringRect : DrawRect :=
    { x := ringWidth / 2, y := ringWidth / 2,
      w := newW - ringWidth, h := newH - ringWidth - bottomPadding }
  let isEllipse := decide (w = h)
  let cornerRadius := min w h * (1 / 10)
  .ringed image newW newH imageRect ringRect ringWidth ringColor isEllipse cornerRadius

/-- The full transformer for one selection state, as composed by
`loadImageForItem` with `createSelectedImageWithRing` or
`createUnselectedImageWithRing`: styling (scale mode and shape mask at the
fixed target size), then the ring step when `ring.enabled`, with the ring
width defaulting to 2.0. -/
def render (image : Rendered) (shape sizeMode : String)
    (ring : Option ImageIconRing) (ringColor : Nat) : Option Rendered :=
  match applyImageIconStyling (some image) shape sizeMode with
  | none => none
  | some styled =>
    match ring with
    | some r =>
      if r.enabled then some (addEnhancedRingToImage styled (r.width.getD 2) ringColor)
      else some styled
    | none => some styled

end TabsBarOverlay.ImageUtils

/-- The centering and ratio facts promised for the `fit` and `cover` scale
modes, for a source bitmap of size `w` by `h` scaled toward a `targetW` by
`targetH` canvas: `fit` scales by the least available-over-source ratio with
`avail = target - 2 x padding` (padding 4), centers, and stays inside the
padded area; `cover` scales by the greatest target-over-source ratio,
centers, and covers the whole target canvas. -/
def FitCoverSpec (pix : Nat) (w h targetW targetH : ℚ) : Prop :=
  ∃ rectF rectC : DrawRect,
    TabsBarOverlay.ImageUtils.resizeImageAspectFit (.base pix w h) targetW targetH =
      .drawn (.base pix w h) targetW targetH rectF ∧
    rectF.w = w * min ((targetW - 2 * 4) / w) ((targetH - 2 * 4) / h) ∧
    rectF.h = h * min ((targetW - 2 * 4) / w) ((targetH - 2 * 4) / h) ∧
    2 * rectF.x + rectF.w = targetW ∧
    2 * rectF.y + rectF.h = targetH ∧
    rectF.w ≤ targetW - 2 * 4 ∧
    rectF.h ≤ targetH - 2 * 4 ∧
    TabsBarOverlay.ImageUtils.resizeImageAspectFill (.base pix w h) targetW targetH =
      .drawn (.base pix w h) targetW targetH rectC ∧
    rectC.w = w * max (targetW / w) (targetH / h) ∧
    rectC.h = h * max (targetW / w) (targetH / h) ∧
    2 * rectC.x + rectC.w = targetW ∧
    2 * rectC.y + rectC.h = targetH ∧
    rectC.x ≤ 0 ∧ rectC.y ≤ 0 ∧
    targetW ≤ rectC.x + rectC.w ∧ targetH ≤ rectC.y + rectC.h

/-- Two decoded items sharing the id "a", both carrying a systemIcon. -/
def dupJsItems : List JSItem :=
  [{ id := "a", title := none, systemIcon := some "house", image := none,
     imageIcon := none, badge := none },
   { id := "a", title := none, systemIcon := some "gear", image := none,
     imageIcon := none, badge := none }]

/-- The native items `configure` builds from `dupJsItems`. -/
def dupTabs : List TabsBarItem :=
  [{ id := "a", title := none, systemIcon := "house", image := none,
     imageIcon := none, badge := none },
   { id := "a", title := none, systemIcon := "gear", image := none,
     imageIcon := none, badge := none }]

/-- A decoded item with a valid id and no `systemIcon` field. -/
def noIconItem : JSItem :=
  { id := "home", title := none, systemIcon := none, image := none,
    imageIcon := none, badge := none }

/-- An icon source whose resolution will fail. -/
def brokenIcon : ImageIcon :=
  { shape := "circle", size := "cover", image := "https://x/broken.png", ring := none }

/-- A tab with a failing icon source, an unavailable symbolic icon and a
bundled asset name. -/
def bundledItem : TabsBarItem :=
  { id := "home", title := none, systemIcon := "nosuchsymbol",
    image := some "customAsset", imageIcon := some brokenIcon, badge := none }

/-- An environment in which no symbolic icon resolves. -/
def noSymbols : String → Bool := fun _ => false

/-- An iOS loader state holding an entry stored arbitrarily long ago: the
cache keeps no timestamp at all. -/
def iosAged : ImageUtils.IosState :=
  { imageCache := [("https://x/a.png", 7)], loadingStates := [], fetchLog := [] }

/-- The empty iOS loader state. -/
def iosInit : ImageUtils.IosState :=
  { imageCache := [], loadingStates := [], fetchLog := [] }

/-- A response with no declared content type that otherwise passes every
check. -/
def respNoCT : ImageUtils.IosResponse :=
  { hasData := true, statusCode := 200, hasError := false, mimeType := none,
    dataSize := 100, decodes := true, imageId := 7 }

/-- A successful web response for witness scenarios. -/
def okResp : ImageManager.WebResponse :=
  { ok := true, contentType := some "image/png", blobSize := 100, blobId := 3 }

/-- A response declaring a content type outside the allowed set. -/
def respBadMime : ImageUtils.IosResponse :=
  { hasData := true, statusCode := 200, hasError := false,
    mimeType := some "text/html", dataSize := 100, decodes := true, imageId := 7 }

/-- A plain tab item with id "a". -/
def itemA : TabsBarItem :=
  { id := "a", title := none, systemIcon := "house", image := none,
    imageIcon := none, badge := none }

/-- A plain tab item with id "c". -/
def itemC : TabsBarItem :=
  { id := "c", title := none, systemIcon := "gear", image := none,
    imageIcon := none, badge := none }

/-- An overlay showing the tabs "a" and "c" with "a" selected. -/
def overlayStateAC : TabsBarOverlay.OverlayState :=
  { items := [itemA, itemC], idToIndexMap := [("a", 0), ("c", 1)],
    widgetSelectedIndex := some 0, lastSelectedIndex := some 0,
    suppressNextSelectionEvent := false }

/-- A cached asset for the key "u", stored at time 0. -/
def cachedU : ImageManager.CachedImage :=
  { url := "u", blobId := 1, timestamp := 0, objectUrl := 4 }

/-- A web manager state holding one asset for the key "u", stored at time 0. -/
def webCachedState : ImageManager.MgrState :=
  { cache := [("u", cachedU)],
    loadingPromises := [], nextPromiseId := 0, fetchLog := [],
    subscribers := [], delivered := [] }

/-- A web manager state with one in-flight promise for the key "u" awaited
by requester 1. -/
def loadingState : ImageManager.MgrState :=
  { cache := [], loadingPromises := [("u", 0)], nextPromiseId := 1,
    fetchLog := ["u"], subscribers := [(1, 0)], delivered := [] }

/-- A web response with no content-type header. -/
def webRespNoCT : ImageManager.WebResponse :=
  { ok := true, contentType := none, blobSize := 10, blobId := 0 }

/-- A sample source bitmap, 16 by 9. -/
def sampleImage : Rendered := .base 5 16 9

/-- C1: the configure boundary rejects an empty items list and an empty id
as claimed, but a duplicated id is not rejected: `dupJsItems` passes the
validation (which checks only for emptiness), the native items are built,
and the id-to-index rebuild inside `update` then traps - the duplicated
configuration crashes instead of failing with `InvalidConfiguration` and
leaving the previously applied tab set unchanged. -/
theorem configure_duplicate_id_trap :
    TabsBarPlugin.validateItems [] = false ∧
    TabsBarPlugin.validateItems
      [{ id := "", title := none, systemIcon := some "house", image := none,
         imageIcon := none, badge := none }] = false ∧
    TabsBarPlugin.validateItems dupJsItems = true ∧
    TabsBarPlugin.buildItems dupJsItems = some dupTabs ∧
    TabsBarOverlay.buildIdToIndex dupTabs = none := by decide

/-- C10: the decoder accepts an item without a `systemIcon` field (it is
declared optional and never validated alongside the id checks), and item
construction force-unwraps it, so a configure call containing such an item
traps instead of being rejected with an error result. -/
theorem configure_missing_systemIcon_traps (js : JSItem)
    (hIcon : js.systemIcon = none) (hId : js.id.isEmpty = false) :
    TabsBarPlugin.validateItems [js] = true ∧
    TabsBarPlugin.buildItems [js] = none := by
  constructor
  · simp [TabsBarPlugin.validateItems, hId]
  · simp [TabsBarPlugin.buildItems, List.mapM, List.mapM.loop, hIcon]

/-- Witness for C10 at the concrete item `noIconItem`. -/
theorem configure_missing_systemIcon_traps_witness :
    TabsBarPlugin.validateItems [noIconItem] = true ∧
    TabsBarPlugin.buildItems [noIconItem] = none :=
  configure_missing_systemIcon_traps noIconItem rfl (by decide)

/-- C2 counterexample: for a tab with a failing icon source, an unavailable
symbolic icon and a bundled asset name, the code installs the empty
placeholder while the chain worded in the spec would install the bundled
asset - the bundled image reference is not part of the code's fallback
chain. -/
theorem fallback_chain_counterexample :
    TabsBarOverlay.loadImageForItem noSymbols bundledItem none =
      TabsBarOverlay.ResolvedIcon.placeholder ∧
    TabsBarOverlay.specFallbackChain noSymbols bundledItem none =
      TabsBarOverlay.ResolvedIcon.fromBundled "customAsset" ∧
    TabsBarOverlay.ResolvedIcon.placeholder ≠
      TabsBarOverlay.ResolvedIcon.fromBundled "customAsset" := by decide

/-- C2 (amended): on a resolution failure the applied fallback chain is
iconSource → symbolicIcon → empty placeholder - the bundled asset reference
is never consulted - so every tab ends with an installed icon; the failure
never escapes `loadImageForItem`, each tab's icon depends only on that tab's
own load outcome, and every pipeline failure kind (transport error,
undecodable bytes, oversized payload, disallowed declared MIME type,
unclassifiable source string) reaches the coordinator as a nil completion
value rather than an error. -/
theorem fallback_chain_amended :
    (∀ sym (model : TabsBarItem),
      TabsBarOverlay.loadImageForItem sym model none =
        (if sym model.systemIcon then .fromSymbol model.systemIcon else .placeholder)) ∧
    (∀ sym (model : TabsBarItem) loaded ref,
      TabsBarOverlay.loadImageForItem sym model loaded ≠ .fromBundled ref) ∧
    (∀ sym models loads i,
      (TabsBarOverlay.resolveAllItems sym models loads)[i]? =
        (models[i]?).map (fun m => TabsBarOverlay.loadImageForItem sym m (loads i))) ∧
    (∀ resp : ImageUtils.IosResponse,
      (resp.hasError = true ∨ resp.decodes = false ∨
        ImageUtils.maxFileSize < resp.dataSize ∨
        (∃ ct, resp.mimeType = some ct ∧
          ImageUtils.validTypes.contains (lowerAscii ct) = false)) →
      ImageUtils.handleResponse resp = none) ∧
    (∀ src, ImageUtils.isValidBase64DataUri src = false →
      ImageUtils.isValidHttpUrl src = false →
      ImageUtils.classifySource src = .invalid) := by
  refine ⟨?_, ?_, ?_, ?_, ?_⟩
  · intro sym model
    cases h : model.imageIcon <;> simp [TabsBarOverlay.loadImageForItem, h]
  · intro sym model loaded ref
    cases h : model.imageIcon <;> cases loaded <;>
      simp [TabsBarOverlay.loadImageForItem, h] <;> split <;> simp
  · intro sym models loads i
    simp only [TabsBarOverlay.resolveAllItems, List.getElem?_map, List.getElem?_enum]
    cases models[i]? <;> simp
  · intro resp h
    unfold ImageUtils.handleResponse
    rcases h with h | h | h | ⟨ct, hct, hbad⟩
    · simp [h]
    · simp [h]
    · simp [h]
    · have hmem : lowerAscii ct ∉ ImageUtils.validTypes := by
        simpa using hbad
      simp [hct, hmem]
  · intro src h1 h2
    simp [ImageUtils.classifySource, h1, h2]

/-- Witness for C2 (amended) at a concrete failing tab and a concrete
disallowed response. -/
theorem fallback_chain_amended_witness :
    TabsBarOverlay.loadImageForItem noSymbols bundledItem none =
      TabsBarOverlay.ResolvedIcon.placeholder ∧
    ImageUtils.handleResponse respBadMime = none := by
  constructor
  · have h := fallback_chain_amended.1 noSymbols bundledItem
    simpa [noSymbols, bundledItem] using h
  · exact fallback_chain_amended.2.2.2.1 respBadMime
      (Or.inr (Or.inr (Or.inr ⟨"text/html", rfl, by decide⟩)))

/-- C7: a `select` call never emits an interaction event, and a `select`
whose id is absent from the current id map is a no-op: the whole overlay
state, including selection and widget highlight, is unchanged. -/
theorem select_no_event_and_missing_noop (s : TabsBarOverlay.OverlayState)
    (id : String) :
    (TabsBarOverlay.select s id).2 = [] ∧
    (s.idToIndexMap.lookup id = none → TabsBarOverlay.select s id = (s, [])) := by
  constructor
  · unfold TabsBarOverlay.select
    cases s.idToIndexMap.lookup id with
    | none => rfl
    | some idx => by_cases h : idx < s.items.length <;> simp [h]
  · intro h
    simp [TabsBarOverlay.select, h]

/-- Witness for C7: selecting the missing id leaves the concrete overlay
untouched, and selecting the present id "a" emits nothing. -/
theorem select_no_event_witness :
    TabsBarOverlay.select overlayStateAC "missing-id" = (overlayStateAC, []) ∧
    (TabsBarOverlay.select overlayStateAC "a").2 = [] :=
  ⟨(select_no_event_and_missing_noop overlayStateAC "missing-id").2 (by decide),
   (select_no_event_and_missing_noop overlayStateAC "a").1⟩

/-- C4: a press held past the 450 ms threshold on a valid tab sets the
one-shot suppression flag, restores the widget highlight to the selected
index, emits exactly one `longPress` event for the held tab, leaves the
selection state unchanged, and the flag is consumed by the toolkit's next
auto-selection callback, which emits nothing and also leaves the selection
unchanged. -/
theorem longPress_coordinator_behaviour (s : TabsBarOverlay.OverlayState)
    (index p : Nat) (hidx : index < s.items.length)
    (hp : s.lastSelectedIndex = some p) (hplen : p < s.items.length) :
    TabsBarOverlay.LongPressSpec s index p hidx := by
  unfold TabsBarOverlay.LongPressSpec TabsBarOverlay.handleLongPressBegan
    TabsBarOverlay.tabBarDidSelect TabsBarOverlay.restorePreviousSelection
  simp only [hidx, dif_pos, hp]
  simp [hplen, TabsBarOverlay.minimumPressDuration, hidx, hp]
  norm_num

/-- Witness for C4: holding tab "c" of the concrete overlay past the
threshold, with tab "a" (index 0) selected. -/
theorem longPress_coordinator_witness :
    TabsBarOverlay.LongPressSpec overlayStateAC 1 0 (by decide) :=
  longPress_coordinator_behaviour overlayStateAC 1 0 (by decide) rfl (by decide)

/-- Looking up the key just pushed onto an association list finds it. -/
theorem lookup_cons_self {β : Type} (k : String) (v : β) (l : List (String × β)) :
    ((k, v) :: l).lookup k = some v := by
  simp [List.lookup]

/-- A key whose lookup misses does not occur among the stored keys. -/
theorem lookup_none_not_mem {β : Type} {l : List (String × β)} {k : String}
    (h : l.lookup k = none) : k ∉ l.map Prod.fst := by
  induction l with
  | nil => simp
  | cons p t ih =>
    obtain ⟨a, b⟩ := p
    by_cases hk : k = a
    · subst hk
      simp [List.lookup] at h
    · simp only [List.lookup, show (k == a) = false by simp [hk]] at h
      simp only [List.map_cons, List.mem_cons]
      rintro (h1 | h1)
      · exact hk h1
      · exact ih h h1

/-- `startFetch` keeps the in-flight keys duplicate-free when the new key
was not in flight. -/
theorem nodup_startFetch {s : ImageManager.MgrState} {r : Nat} {url : String}
    (hn : (s.loadingPromises.map Prod.fst).Nodup)
    (h : s.loadingPromises.lookup url = none) :
    (((ImageManager.startFetch s r url).loadingPromises).map Prod.fst).Nodup := by
  simp only [ImageManager.startFetch, List.map_cons]
  exact List.nodup_cons.mpr ⟨lookup_none_not_mem h, hn⟩

/-- `loadRemoteImage` keeps the in-flight keys duplicate-free. -/
theorem nodup_loadRemoteImage {s : ImageManager.MgrState} (r : Nat) (url : String)
    (now : Nat) (hn : (s.loadingPromises.map Prod.fst).Nodup) :
    (((ImageManager.loadRemoteImage s r url now).loadingPromises).map Prod.fst).Nodup := by
  unfold ImageManager.loadRemoteImage
  cases hlk : s.loadingPromises.lookup url with
  | some pid => simpa using hn
  | none =>
    cases hc : s.cache.lookup url with
    | some c =>
      by_cases hfresh : now - c.timestamp < ImageManager.CACHE_DURATION
      · simpa [hfresh] using hn
      · simpa [hfresh] using nodup_startFetch hn hlk
    | none => simpa using nodup_startFetch hn hlk

/-- `settleFetch` keeps the in-flight keys duplicate-free. -/
theorem nodup_settleFetch {s : ImageManager.MgrState} (url : String)
    (resp : ImageManager.WebResponse) (objectUrl now : Nat)
    (hn : (s.loadingPromises.map Prod.fst).Nodup) :
    (((ImageManager.settleFetch s url resp objectUrl now).loadingPromises).map
      Prod.fst).Nodup := by
  unfold ImageManager.settleFetch
  have hs : (((s.loadingPromises.filter (fun p => p.1 != url)).map Prod.fst)).Sublist
      (s.loadingPromises.map Prod.fst) := (List.filter_sublist _).map _
  cases hlk : s.loadingPromises.lookup url with
  | none => simpa using hn
  | some pid =>
    cases hcr : ImageManager.checkResponse resp with
    | error e => exact List.Nodup.sublist hs hn
    | ok b => exact List.Nodup.sublist hs hn

/-- Joining an in-flight promise only adds the requester as a subscriber. -/
theorem loadRemoteImage_inflight (s : ImageManager.MgrState) (r : Nat)
    (url : String) (now : Nat) {pid : Nat}
    (h : s.loadingPromises.lookup url = some pid) :
    ImageManager.loadRemoteImage s r url now =
      { s with subscribers := (r, pid) :: s.subscribers } := by
  unfold ImageManager.loadRemoteImage
  rw [h]

/-- A request for a key neither in flight nor cached starts a fetch. -/
theorem loadRemoteImage_miss (s : ImageManager.MgrState) (r : Nat)
    (url : String) (now : Nat) (h1 : s.loadingPromises.lookup url = none)
    (h2 : s.cache.lookup url = none) :
    ImageManager.loadRemoteImage s r url now = ImageManager.startFetch s r url := by
  unfold ImageManager.loadRemoteImage
  rw [h1, h2]

/-- While a promise for `url` is registered, a batch of further requests for
`url` leaves every component but the subscriber list untouched and
subscribes each requester of the batch to that same promise. -/
theorem processRequests_inflight (rs : List Nat) (url : String) (now pid : Nat) :
    ∀ s : ImageManager.MgrState, s.loadingPromises.lookup url = some pid →
      (ImageManager.processRequests s rs url now).loadingPromises = s.loadingPromises ∧
      (ImageManager.processRequests s rs url now).cache = s.cache ∧
      (ImageManager.processRequests s rs url now).fetchLog = s.fetchLog ∧
      (ImageManager.processRequests s rs url now).nextPromiseId = s.nextPromiseId ∧
      (ImageManager.processRequests s rs url now).delivered = s.delivered ∧
      (∀ q ∈ s.subscribers, q ∈ (ImageManager.processRequests s rs url now).subscribers) ∧
      (∀ r' ∈ rs, (r', pid) ∈ (ImageManager.processRequests s rs url now).subscribers) := by
  induction rs with
  | nil =>
    intro s h
    simp [ImageManager.processRequests]
  | cons a as ih =>
    intro s h
    have hstep : ImageManager.loadRemoteImage s a url now =
        { s with subscribers := (a, pid) :: s.subscribers } :=
      loadRemoteImage_inflight s a url now h
    have hfold : ImageManager.processRequests s (a :: as) url now =
        ImageManager.processRequests
          { s with subscribers := (a, pid) :: s.subscribers } as url now := by
      simp [ImageManager.processRequests, hstep]
    have ih2 := ih { s with subscribers := (a, pid) :: s.subscribers } h
    rw [hfold]
    refine ⟨ih2.1, ih2.2.1, ih2.2.2.1, ih2.2.2.2.1, ih2.2.2.2.2.1, ?_, ?_⟩
    · intro q hq
      exact ih2.2.2.2.2.2.1 q (by simp [hq])
    · intro r' hr'
      rcases List.mem_cons.mp hr' with h1 | h1
      · subst h1
        exact ih2.2.2.2.2.2.1 (r', pid) (by simp)
      · exact ih2.2.2.2.2.2.2 r' h1

/-- C3: the in-flight promise keys are duplicate-free in every reachable
manager state - at most one in-flight fetch per key at any moment - and a
batch of concurrent requests for the same uncached key issues exactly one
network fetch, shares one promise, and delivers the fetched result to every
requester of the batch once the fetch settles. -/
theorem fetchCache_dedup :
    (∀ s, ImageManager.Reachable s →
      (s.loadingPromises.map Prod.fst).Nodup) ∧
    (∀ (s : ImageManager.MgrState) (r : Nat) (rs : List Nat) (url : String)
        (now now2 : Nat) (resp : ImageManager.WebResponse) (objectUrl : Nat),
      s.loadingPromises.lookup url = none →
      s.cache.lookup url = none →
      (∃ b, ImageManager.checkResponse resp = .ok b) →
      ImageManager.FanOutSpec s r rs url now now2 resp objectUrl) := by
  constructor
  · intro s hreach
    induction hreach with
    | init => simp [ImageManager.initState]
    | load r url now _ ih => exact nodup_loadRemoteImage r url now ih
    | settle url resp objectUrl now _ ih => exact nodup_settleFetch url resp objectUrl now ih
    | clear _ ih => simp [ImageManager.clearCache]
  · intro s r rs url now now2 resp objectUrl h1 h2 hok
    obtain ⟨b, hb⟩ := hok
    have hstep : ImageManager.loadRemoteImage s r url now = ImageManager.startFetch s r url :=
      loadRemoteImage_miss s r url now h1 h2
    have hlk1 : (ImageManager.startFetch s r url).loadingPromises.lookup url =
        some s.nextPromiseId := by
      simp only [ImageManager.startFetch]
      exact lookup_cons_self url s.nextPromiseId s.loadingPromises
    have hfold : ImageManager.processRequests s (r :: rs) url now =
        ImageManager.processRequests (ImageManager.startFetch s r url) rs url now := by
      simp [ImageManager.processRequests, hstep]
    obtain ⟨hl, hc, hf, hnp, hd, hsub, hmem⟩ :=
      processRequests_inflight rs url now s.nextPromiseId
        (ImageManager.startFetch s r url) hlk1
    have hmemAll : ∀ r' ∈ r :: rs, (r', s.nextPromiseId) ∈
        (ImageManager.processRequests (ImageManager.startFetch s r url) rs url now).subscribers := by
      intro r' hr'
      rcases List.mem_cons.mp hr' with h3 | h3
      · subst h3
        exact hsub (r', s.nextPromiseId) (by simp [ImageManager.startFetch])
      · exact hmem r' h3
    have hlk2 : (ImageManager.processRequests (ImageManager.startFetch s r url) rs
        url now).loadingPromises.lookup url = some s.nextPromiseId := by
      rw [hl]; exact hlk1
    unfold ImageManager.FanOutSpec
    rw [hfold]
    refine ⟨?_, ?_, hmemAll, ?_⟩
    · rw [hf]
      simp [ImageManager.startFetch]
    · exact hlk2
    · intro r' hr'
      unfold ImageManager.settleFetch
      rw [hlk2, hb]
      simp only []
      apply List.mem_append_left
      apply List.mem_filterMap.mpr
      exact ⟨(r', s.nextPromiseId), hmemAll r' hr', by simp⟩

/-- Witness for C3: requesters 1 and 2 ask for the same uncached key in the
empty manager; C3 instantiated there. -/
theorem fetchCache_dedup_witness :
    ImageManager.FanOutSpec ImageManager.initState 1 [2] "https://x/a.png" 0 5 okResp 9 :=
  fetchCache_dedup.2 ImageManager.initState 1 [2] "https://x/a.png" 0 5 okResp 9
    rfl rfl ⟨3, rfl⟩

/-- C5 counterexample: the iOS loader's cache stores no timestamp, so a
resolve for a key stored arbitrarily long ago returns the cached image with
no network fetch - the promised 24h refetch never happens on iOS. -/
theorem ttl_counterexample :
    ImageUtils.loadImageFromUrl iosAged "https://x/a.png" true =
      (iosAged, .cachedHit 7) := by decide

/-- C5 (amended): in the web manager a resolve within 24h of storing is
answered from the cache with no fetch, a resolve at or after the TTL starts
exactly one refetch, and a successful settlement replaces the entry for the
key with one stamped at the settlement time; the iOS loader instead stores
entries without any expiry and answers every later resolve from its cache
with no refetch. -/
theorem ttl_behaviour_amended :
    (∀ (s : ImageManager.MgrState) (r : Nat) (url : String) (now : Nat)
        (c : ImageManager.CachedImage),
      s.loadingPromises.lookup url = none →
      s.cache.lookup url = some c →
      c.timestamp ≤ now → now < c.timestamp + ImageManager.CACHE_DURATION →
      ImageManager.loadRemoteImage s r url now =
        { s with delivered := (r, c.objectUrl) :: s.delivered }) ∧
    (∀ (s : ImageManager.MgrState) (r : Nat) (url : String) (now : Nat)
        (c : ImageManager.CachedImage),
      s.loadingPromises.lookup url = none →
      s.cache.lookup url = some c →
      c.timestamp + ImageManager.CACHE_DURATION ≤ now →
      ImageManager.loadRemoteImage s r url now = ImageManager.startFetch s r url ∧
      (ImageManager.loadRemoteImage s r url now).fetchLog = url :: s.fetchLog) ∧
    (∀ (s : ImageManager.MgrState) (url : String) (resp : ImageManager.WebResponse)
        (objectUrl now2 pid b : Nat),
      s.loadingPromises.lookup url = some pid →
      ImageManager.checkResponse resp = .ok b →
      (ImageManager.settleFetch s url resp objectUrl now2).cache.lookup url =
        some { url := url, blobId := b, timestamp := now2, objectUrl := objectUrl }) ∧
    (∀ (s : ImageUtils.IosState) (url : String) (img : Nat) (urlParses : Bool),
      s.imageCache.lookup url = some img →
      ImageUtils.loadImageFromUrl s url urlParses = (s, .cachedHit img)) := by
  refine ⟨?_, ?_, ?_, ?_⟩
  · intro s r url now c h1 h2 h3 h4
    have hfresh : now - c.timestamp < ImageManager.CACHE_DURATION := by omega
    unfold ImageManager.loadRemoteImage
    rw [h1, h2]
    simp [hfresh]
  · intro s r url now c h1 h2 h3
    have hstale : ¬ (now - c.timestamp < ImageManager.CACHE_DURATION) := by omega
    constructor
    · unfold ImageManager.loadRemoteImage
      rw [h1, h2]
      simp [hstale]
    · unfold ImageManager.loadRemoteImage
      rw [h1, h2]
      simp [hstale, ImageManager.startFetch]
  · intro s url resp objectUrl now2 pid b hlk hb
    unfold ImageManager.settleFetch
    rw [hlk, hb]
    simp only [ImageManager.cleanupCache, List.filter_cons]
    have hkeep : (now2 - now2 ≤ ImageManager.CACHE_DURATION) := by omega
    simp [hkeep, List.lookup]
  · intro s url img urlParses h
    unfold ImageUtils.loadImageFromUrl
    rw [h]

/-- Witness for C5 (amended): the concrete cached web state answers a fresh
resolve from the cache, refetches at the TTL boundary, a settlement
replaces the entry, and the aged iOS cache answers with no fetch. -/
theorem ttl_behaviour_amended_witness :
    ImageManager.loadRemoteImage webCachedState 1 "u" 100 =
      { webCachedState with delivered := [(1, 4)] } ∧
    (ImageManager.loadRemoteImage webCachedState 1 "u"
      ImageManager.CACHE_DURATION).fetchLog = ["u"] ∧
    (ImageManager.settleFetch loadingState "u" okResp 9 50).cache.lookup "u" =
      some { url := "u", blobId := 3, timestamp := 50, objectUrl := 9 } ∧
    ImageUtils.loadImageFromUrl iosAged "https://x/a.png" false =
      (iosAged, .cachedHit 7) :=
  ⟨by
    have h := ttl_behaviour_amended.1 webCachedState 1 "u" 100 cachedU rfl rfl
      (by simp [cachedU]) (by norm_num [cachedU, ImageManager.CACHE_DURATION])
    simpa [cachedU] using h,
   (ttl_behaviour_amended.2.1 webCachedState 1 "u" ImageManager.CACHE_DURATION
      cachedU rfl rfl (by simp [cachedU])).2,
   ttl_behaviour_amended.2.2.1 loadingState "u" okResp 9 50 0 3 rfl rfl,
   ttl_behaviour_amended.2.2.2 iosAged "https://x/a.png" 7 false rfl⟩

/-- C6 counterexample: a response that declares no content type at all
passes the iOS validation, decodes, is delivered and is cached - so a
successful resolve does not imply that the declared content type was in the
allowed set. -/
theorem contentType_counterexample :
    ImageUtils.handleResponse respNoCT = some 7 ∧
    respNoCT.mimeType = none ∧
    (ImageUtils.finishLoad iosInit "https://x/a" respNoCT).imageCache.lookup
      "https://x/a" = some 7 := by decide

/-- C6 (amended): a declared content type outside the allowed MIME set makes
the resolve fail with nothing cached (on both platforms), and a successful
resolve implies that the declared content type, when one was declared, was
in the allowed set; the iOS loader skips the check entirely when the
response declares no content type, while the web loader treats a missing
header as the empty string and rejects it. -/
theorem contentType_check_amended :
    (∀ (resp : ImageUtils.IosResponse) (ct : String),
      resp.mimeType = some ct →
      ImageUtils.validTypes.contains (lowerAscii ct) = false →
      ImageUtils.handleResponse resp = none ∧
      ∀ (s : ImageUtils.IosState) (url : String),
        (ImageUtils.finishLoad s url resp).imageCache = s.imageCache) ∧
    (∀ (resp : ImageUtils.IosResponse) (img : Nat),
      ImageUtils.handleResponse resp = some img →
      ∀ ct, resp.mimeType = some ct →
      ImageUtils.validTypes.contains (lowerAscii ct) = true) ∧
    (∀ resp : ImageManager.WebResponse,
      resp.ok = true →
      ImageManager.isValidImageFormat ((resp.contentType).getD "") = false →
      ImageManager.checkResponse resp = .error .unsupportedFormat) ∧
    (∀ (resp : ImageManager.WebResponse) (b : Nat),
      ImageManager.checkResponse resp = .ok b →
      ImageManager.isValidImageFormat ((resp.contentType).getD "") = true) ∧
    (∀ (s : ImageManager.MgrState) (url : String) (resp : ImageManager.WebResponse)
        (objectUrl now : Nat) (e : ImageManager.FetchFailure),
      ImageManager.checkResponse resp = .error e →
      (ImageManager.settleFetch s url resp objectUrl now).cache = s.cache) := by
  refine ⟨?_, ?_, ?_, ?_, ?_⟩
  · intro resp ct hct hbad
    have hmem : lowerAscii ct ∉ ImageUtils.validTypes := by simpa using hbad
    have hnone : ImageUtils.handleResponse resp = none := by
      simp [ImageUtils.handleResponse, hct, hmem]
    refine ⟨hnone, ?_⟩
    intro s url
    simp [ImageUtils.finishLoad, hnone]
  · intro resp img h ct hct
    by_contra hfalse
    have hb : ImageUtils.validTypes.contains (lowerAscii ct) = false :=
      Bool.eq_false_iff.mpr hfalse
    have hmem : lowerAscii ct ∉ ImageUtils.validTypes := by simpa using hb
    simp [ImageUtils.handleResponse, hct, hmem] at h
  · intro resp hok hbad
    simp [ImageManager.checkResponse, hok, hbad]
  · intro resp b h
    by_contra hfalse
    have hb : ImageManager.isValidImageFormat ((resp.contentType).getD "") = false :=
      Bool.eq_false_iff.mpr hfalse
    cases hok : resp.ok <;> simp [ImageManager.checkResponse, hok, hb] at h
  · intro s url resp objectUrl now e h
    unfold ImageManager.settleFetch
    cases hlk : s.loadingPromises.lookup url with
    | none => rfl
    | some pid => rw [h]

/-- Witness for C6 (amended): the declared type "text/html" is rejected by
the iOS check, and the web check rejects a response with no content-type
header. -/
theorem contentType_check_amended_witness :
    ImageUtils.handleResponse respBadMime = none ∧
    ImageManager.checkResponse webRespNoCT = .error .unsupportedFormat :=
  ⟨(contentType_check_amended.1 respBadMime "text/html" rfl (by decide)).1,
   contentType_check_amended.2.2.1 webRespNoCT rfl (by decide)⟩

/-- C8: the transformer is a deterministic function of its arguments - two
invocations with identical source bitmap, shape, scale mode, ring
configuration and ring color yield identical rendered output. -/
theorem render_deterministic (i₁ i₂ : Rendered) (sh₁ sh₂ sm₁ sm₂ : String)
    (r₁ r₂ : Option ImageIconRing) (c₁ c₂ : Nat)
    (heq : (i₁, sh₁, sm₁, r₁, c₁) = (i₂, sh₂, sm₂, r₂, c₂)) :
    TabsBarOverlay.ImageUtils.render i₁ sh₁ sm₁ r₁ c₁ =
      TabsBarOverlay.ImageUtils.render i₂ sh₂ sm₂ r₂ c₂ := by
  simp only [Prod.mk.injEq] at heq
  obtain ⟨rfl, rfl, rfl, rfl, rfl⟩ := heq
  rfl

/-- Witness for C8 at a concrete bitmap, shape, mode, ring and color. -/
theorem render_deterministic_witness :
    TabsBarOverlay.ImageUtils.render sampleImage "circle" "cover"
        (some { enabled := true, width := some 3 }) 1 =
      TabsBarOverlay.ImageUtils.render sampleImage "circle" "cover"
        (some { enabled := true, width := some 3 }) 1 :=
  render_deterministic sampleImage sampleImage "circle" "circle" "cover" "cover"
    (some { enabled := true, width := some 3 }) (some { enabled := true, width := some 3 })
    1 1 rfl

/-- The product of a positive factor and a minimum involving the matching
quotient is at most the dividend. -/
theorem mul_min_div_le (w a b : ℚ) (hw : 0 < w) : w * min (a / w) b ≤ a := by
  have h1 : w * min (a / w) b ≤ w * (a / w) :=
    mul_le_mul_of_nonneg_left (min_le_left _ _) hw.le
  have h2 : w * (a / w) = a := by field_simp
  linarith

/-- The product of a positive factor and a maximum involving the matching
quotient is at least the dividend. -/
theorem le_mul_max_div (w a b : ℚ) (hw : 0 < w) : a ≤ w * max (a / w) b := by
  have h1 : w * (a / w) ≤ w * max (a / w) b :=
    mul_le_mul_of_nonneg_left (le_max_left _ _) hw.le
  have h2 : w * (a / w) = a := by field_simp
  linarith

/-- C9: for a positive-size source image, `fit` scales by the least
available-over-source ratio with `avail = target - 2 x padding` for the
fixed padding 4 and centers the result inside the target, while `cover`
scales by the greatest target-over-source ratio, centers, and covers the
whole target (center-crop). -/
theorem fit_cover_scaling (pix : Nat) (w h targetW targetH : ℚ)
    (hw : 0 < w) (hh : 0 < h) : FitCoverSpec pix w h targetW targetH := by
  unfold FitCoverSpec
  refine ⟨_, _, rfl, ?_, ?_, ?_, ?_, ?_, ?_, rfl, ?_, ?_, ?_, ?_, ?_, ?_, ?_, ?_⟩ <;>
    simp only [TabsBarOverlay.ImageUtils.resizeImageAspectFit,
      TabsBarOverlay.ImageUtils.resizeImageAspectFill,
      Rendered.width, Rendered.height]
  · norm_num
  · norm_num
  · ring
  · ring
  · have := mul_min_div_le w (targetW - 4 * 2) ((targetH - 4 * 2) / h) hw
    norm_num at this ⊢
    linarith
  · have h1 : h * min ((targetW - 4 * 2) / w) ((targetH - 4 * 2) / h) ≤
        h * ((targetH - 4 * 2) / h) :=
      mul_le_mul_of_nonneg_left (min_le_right _ _) hh.le
    have h2 : h * ((targetH - 4 * 2) / h) = targetH - 4 * 2 := by field_simp
    norm_num at h1 h2 ⊢
    linarith
  · ring
  · ring
  · have := le_mul_max_div w targetW (targetH / h) hw
    linarith
  · have h1 : h * (targetH / h) ≤ h * max (targetW / w) (targetH / h) :=
      mul_le_mul_of_nonneg_left (le_max_right _ _) hh.le
    have h2 : h * (targetH / h) = targetH := by field_simp
    linarith
  · have := le_mul_max_div w targetW (targetH / h) hw
    linarith
  · have h1 : h * (targetH / h) ≤ h * max (targetW / w) (targetH / h) :=
      mul_le_mul_of_nonneg_left (le_max_right _ _) hh.le
    have h2 : h * (targetH / h) = targetH := by field_simp
    linarith

/-- Witness for C9 at a 10 by 5 source and the 20 by 20 target the overlay
uses. -/
theorem fit_cover_scaling_witness : FitCoverSpec 1 10 5 20 20 :=
  fit_cover_scaling 1 10 5 20 20 (by norm_num) (by norm_num)

end StayLiquid
